import Mathlib

/-!
Verification of the batch vision-analysis driver
(`src/modality/vision/archery_vision_analysis.py`).

The script is embedded shallowly: the generation capability (the
`transformers` pipeline call), the clock (`time.time()`), the process
memory probe (`psutil ... rss`) and the artifact-size lookup are opaque
external effects, supplied by an `Env` record; successive clock and
memory readings are modelled as streams indexed by call number.
`describe_image_with_pipeline` and `main` are translated statement by
statement from the source; the value returned by the embedding records,
besides the Python return value, the externally observable effects
(the conversation sent to the pipeline, the handle used, how many times
a pipeline was constructed).
-/

/-- A content item of one conversation turn: either a text part
(`{"type": "text", "text": s}`) or an image reference
(`{"type": "image", "image": path}`). -/
inductive ContentItem where
  | text (s : String)
  | image (path : String)
deriving DecidableEq

/-- One message of the conversation: a role (`"system"` / `"user"`) and a
list of content items. -/
structure Message where
  role : String
  content : List ContentItem
deriving DecidableEq

/-- One turn of the generated chat returned by the pipeline
(an element of `output[0]["generated_text"]`); only its `"content"`
field is read by the script. -/
structure GenTurn where
  content : String
deriving DecidableEq

/-- One element of the pipeline's output list (`output[k]`); the script
reads its `"generated_text"` field. -/
structure GenEntry where
  generated_text : List GenTurn
deriving DecidableEq

/-- The pipeline's raw output (a Python list). -/
abbrev GenOutput := List GenEntry

/-- The arguments with which `pipeline(...)` is constructed; read-only
after creation. -/
structure EngineHandle where
  task : String
  model : String
  dtype : String
  device : String
deriving DecidableEq

/-- Source line 19: `MODEL_ID = "google/gemma-3n-e4b-it"`. -/
def MODEL_ID : String := "google/gemma-3n-e4b-it"

/-- The fixed system-instruction schema text, transliterated from the
string literal at source lines 44-60. -/
def SYSTEM_SCHEMA_TEXT : String :=
  "You are a Archery Expert Coach who is deeper in understanding body for, as-in archer is holding the bow right, line and length of arm, positioning at face, back muscle engagement etc. You will be given images of archer from various perspectives and you will have to analyze on what\x27s looking good and what is not. Explain in this format:\n\nWhat I see:\nGender: <Male, Female, Cannot Determine>\nWearing Top: <Yes, No, Not Visible> And If Yes, <COLOR> and <TYPE like Full Arm Shirt, Sleeveless Short, Tang Top etc>\nWearing Bottom: <Yes, No, Not Visible> And If Yes, <COLOR> and <TYPE like Shorts, Jeans, Athletic Wear etc>\nFace Visible: <Yes or No>\nBack Visible: <Yes or No>\nBack Muscle Group Visible: <Yes or No>\nArms Full Length Visible: <Yes or No>\nRight Foot Forward: <Yes, No, Not Visible>\nLeft Foot Forward: <Yes, No, Not Visible>\nStance: <stance>\nArchery Related: <Yes or No>\nImage Useful For Archery Analysis: <Yes or No>\n\nExpert Analysis: <Your Detailed Analysis>"

/-- The `messages` list built at source lines 41-69: a system turn
carrying the fixed schema text and a user turn carrying exactly one
image reference.  The text part of the user turn is commented out in
the source (line 66) and therefore absent here. -/
def messagesFor (image_path : String) : List Message :=
  [ { role := "system", content := [ContentItem.text SYSTEM_SCHEMA_TEXT] },
    { role := "user", content := [ContentItem.image image_path] } ]

/-- The external world of one run: the directory listing, CUDA
availability, the generation capability, the clock and memory sample
streams (indexed by call number) and the outcome of the body of
`get_model_size_gb` (`.error e` = the lookup raised, `.ok none` =
`cached_file` returned `None`, `.ok (some n)` = the computed size). -/
structure Env where
  files : List String
  cudaAvailable : Bool
  run : EngineHandle → List Message → Nat → Except String GenOutput
  clock : Nat → Int
  mem : Nat → Nat
  sizeLookup : Except String (Option Nat)

/-- Source line 71: `output[0]["generated_text"][-1]["content"]`.
Indexing an empty list raises `IndexError` in Python, modelled as
`.error`. -/
def extractAnswer (output : GenOutput) : Except String String :=
  match output with
  | [] => Except.error "IndexError: list index out of range"
  | entry :: _ =>
    match entry.generated_text.getLast? with
    | none => Except.error "IndexError: list index out of range"
    | some turn => Except.ok turn.content

instance {ε α : Type} [DecidableEq ε] [DecidableEq α] : DecidableEq (Except ε α) :=
  fun a b =>
    match a, b with
    | Except.error e1, Except.error e2 =>
      if h : e1 = e2 then isTrue (by rw [h])
      else isFalse (by intro hc; cases hc; exact h rfl)
    | Except.error _, Except.ok _ => isFalse (by intro hc; cases hc)
    | Except.ok _, Except.error _ => isFalse (by intro hc; cases hc)
    | Except.ok a1, Except.ok a2 =>
      if h : a1 = a2 then isTrue (by rw [h])
      else isFalse (by intro hc; cases hc; exact h rfl)

/-- The observable behaviour of one `describe_image_with_pipeline` call:
its return value (or the propagated exception), the conversation passed
to the pipeline, the `max_new_tokens` argument, the pipeline handle
used, and how many pipeline constructions the call performed. -/
structure DescribeOut where
  result : Except String String
  messages : List Message
  maxTokens : Nat
  handle : EngineHandle
  inits : Nat
deriving DecidableEq

/-- Source lines 26-71, `describe_image_with_pipeline(image_path,
user_text=None, pipe=None)`: when no preloaded pipeline is supplied it
selects cuda/bfloat16 when CUDA is available and cpu/float32 otherwise
and constructs a pipeline (lines 28-40); it then sends the two-turn
conversation with `max_new_tokens=200` and returns the final generated
turn's content.  `user_text` is accepted but never used (its only use,
line 66, is commented out). -/
def describe_image_with_pipeline (env : Env) (image_path : String)
    (user_text : Option String) (pipe : Option EngineHandle) : DescribeOut :=
  let pi : EngineHandle × Nat :=
    match pipe with
    | some p => (p, 0)
    | none =>
      if env.cudaAvailable then
        ({ task := "image-text-to-text", model := MODEL_ID,
           dtype := "bfloat16", device := "cuda" }, 1)
      else
        ({ task := "image-text-to-text", model := MODEL_ID,
           dtype := "float32", device := "cpu" }, 1)
  let messages := messagesFor image_path
  let result : Except String String :=
    match env.run pi.1 messages 200 with
    | Except.error e => Except.error e
    | Except.ok output => extractAnswer output
  { result := result, messages := messages, maxTokens := 200,
    handle := pi.1, inits := pi.2 }

/-- Source lines 85-98, `get_model_size_gb`: the whole body runs under
`try ... except Exception: return None`; a `None` weights path also
yields `None`.  Its argument is the outcome of the external lookup. -/
def get_model_size_gb (lookup : Except String (Option Nat)) : Option Nat :=
  match lookup with
  | Except.error _ => none
  | Except.ok none => none
  | Except.ok (some sz) => some sz

/-- Source line 107: `image_extensions = ("*.png", "*.jpg", "*.jpeg",
"*.webp")`, without the `*.` pattern wrapper. -/
def image_extensions : List String := ["png", "jpg", "jpeg", "webp"]

/-- Whether a filename is hidden in the sense of Python's `glob`
module: it begins with a dot. -/
def isHiddenName (name : String) : Bool :=
  ['.'].isPrefixOf name.data

/-- Python `glob.glob("*.<ext>")` over a directory listing: a name
matches when it ends with `"." ++ ext` and, because `*` in `glob` never
matches a leading dot, when the name is not hidden. -/
def globStarDot (ext : String) (name : String) : Bool :=
  (("." ++ ext).data.isSuffixOf name.data) && !(isHiddenName name)

/-- Source lines 106-110: `image_files` is built by extending an empty
list with `glob.glob(pat)` for each of the four patterns in order. -/
def discoverImages (files : List String) : List String :=
  image_extensions.foldl
    (fun acc ext => acc ++ files.filter (globStarDot ext)) []

/-- The spec-side predicate of discovery: the name's extension is,
case-sensitively, one of the four image extensions (the name ends with
`"." ++ ext`). -/
def hasImageExtension (name : String) : Bool :=
  image_extensions.any (fun ext => ("." ++ ext).data.isSuffixOf name.data)

/-- The per-image record emitted by the loop at source lines 143-164:
the image path, the elapsed wall-clock inference time, the memory
samples taken before and after, and either the result text or the
caught failure description. -/
structure ItemReport where
  image : String
  inferTime : Int
  memBefore : Nat
  memAfter : Nat
  result : Except String String
deriving DecidableEq

/-- The batch-level telemetry captured once before the loop (model size
on disk — `none` printed as "Unknown" —, load duration, initial
memory). -/
structure BatchSummary where
  modelSize : Option Nat
  loadTime : Int
  initialMem : Nat
deriving DecidableEq

/-- The outcome of a run: either the "No image files found" early
return (lines 111-113) or a completed batch with its summary and one
report per image. -/
inductive RunOutcome where
  | noImages
  | completed (summary : BatchSummary) (reports : List ItemReport)
deriving DecidableEq

/-- The reports of an outcome (none in the early-return case). -/
def RunOutcome.reports : RunOutcome → List ItemReport
  | RunOutcome.noImages => []
  | RunOutcome.completed _ rs => rs

/-- The model size the run reported, when it completed. -/
def RunOutcome.modelSizeReported : RunOutcome → Option (Option Nat)
  | RunOutcome.noImages => none
  | RunOutcome.completed s _ => some s.modelSize

/-- Whether the run ran the batch to completion. -/
def RunOutcome.isCompleted : RunOutcome → Bool
  | RunOutcome.noImages => false
  | RunOutcome.completed _ _ => true

/-- The observable behaviour of one `main()` run: how many pipeline
constructions it performed in total, and its outcome. -/
structure RunResult where
  initCount : Nat
  outcome : RunOutcome
deriving DecidableEq

/-- Source lines 117-129: the device/precision selection and pipeline
construction performed once by `main` before the loop. -/
def mainEnginePipe (cuda : Bool) : EngineHandle :=
  if cuda then
    { task := "image-text-to-text", model := MODEL_ID,
      dtype := "bfloat16", device := "cuda" }
  else
    { task := "image-text-to-text", model := MODEL_ID,
      dtype := "float32", device := "cpu" }

/-- One iteration of the loop at source lines 143-164, with `t` and `m`
the indices of the next clock and memory samples: sample start time and
before-memory, call `describe_image_with_pipeline(image_path,
pipe=pipe)` inside `try`, then — on success and in the `except` branch
alike — sample end time and after-memory and emit the report.  Also
returns how many pipeline constructions the iteration performed. -/
def runOne (env : Env) (pipe : EngineHandle) (image_path : String)
    (t m : Nat) : ItemReport × Nat :=
  let infer_start := env.clock t
  let mem_before := env.mem m
  let d := describe_image_with_pipeline env image_path none (some pipe)
  let infer_end := env.clock (t + 1)
  let mem_after := env.mem (m + 1)
  ({ image := image_path, inferTime := infer_end - infer_start,
     memBefore := mem_before, memAfter := mem_after, result := d.result },
   d.inits)

/-- The loop at source lines 143-164 over the remaining images,
threading the clock and memory sample indices; returns the emitted
reports in order and the total number of pipeline constructions the
loop performed. -/
def processImages (env : Env) (pipe : EngineHandle) :
    List String → Nat → Nat → List ItemReport × Nat
  | [], _, _ => ([], 0)
  | image_path :: rest, t, m =>
    let rk := runOne env pipe image_path t m
    let rest' := processImages env pipe rest (t + 2) (m + 2)
    (rk.1 :: rest'.1, rk.2 + rest'.2)

/-- Source lines 105-164, `main()`: discover images; if none, print the
empty-directory message and return (no pipeline is constructed);
otherwise time the single pipeline construction (clock samples 0 and
1), probe the model size best-effort, sample the initial memory (memory
sample 0), and run the per-image loop (clock samples from 2, memory
samples from 1). -/
def mainRun (env : Env) : RunResult :=
  let image_files := discoverImages env.files
  if image_files.isEmpty then
    { initCount := 0, outcome := RunOutcome.noImages }
  else
    let pipe := mainEnginePipe env.cudaAvailable
    let model_load_time := env.clock 1 - env.clock 0
    let model_size_gb := get_model_size_gb env.sizeLookup
    let initial_mem := env.mem 0
    let rs := processImages env pipe image_files 2 1
    { initCount := 1 + rs.2,
      outcome := RunOutcome.completed
        { modelSize := model_size_gb, loadTime := model_load_time,
          initialMem := initial_mem } rs.1 }

/-- The image references carried by a conversation, in order. -/
def imageRefs (msgs : List Message) : List String :=
  msgs.flatMap (fun msg =>
    msg.content.filterMap (fun c =>
      match c with
      | ContentItem.image p => some p
      | ContentItem.text _ => none))

/-- A message with its image references blanked out; two conversations
with equal `stripImageRefs` images differ at most in which images they
reference. -/
def stripImageRefs (msg : Message) : Message :=
  { msg with
    content := msg.content.map (fun c =>
      match c with
      | ContentItem.image _ => ContentItem.image ""
      | ContentItem.text s => ContentItem.text s) }

/-- A directory holding no image file, used to exercise the
empty-discovery path on a concrete input. -/
def envEmpty : Env :=
  { files := ["notes.txt"],
    cudaAvailable := false,
    run := fun _ _ _ => Except.error "engine should never be called",
    clock := fun _ => 0,
    mem := fun _ => 0,
    sizeLookup := Except.ok none }

/-- A run over one image whose artifact-size lookup raises, used to
exercise the size-probe failure path on a concrete input. -/
def envProbeFail : Env :=
  { files := ["a.png"],
    cudaAvailable := false,
    run := fun _ _ _ => Except.ok [{ generated_text := [{ content := "ok" }] }],
    clock := fun k => (k : Int),
    mem := fun k => k,
    sizeLookup := Except.error "model not in local cache" }

/-- A run over one image whose artifact-size lookup resolves no weights
path (`cached_file` returns `None`), used to exercise the other
size-probe failure mode on a concrete input. -/
def envProbeNone : Env :=
  { files := ["b.jpg"],
    cudaAvailable := false,
    run := fun _ _ _ => Except.ok [{ generated_text := [{ content := "ok" }] }],
    clock := fun k => (k : Int),
    mem := fun k => k,
    sizeLookup := Except.ok none }

/-- The cpu/float32 engine handle, as constructed when CUDA is
unavailable. -/
def handleCpu : EngineHandle :=
  { task := "image-text-to-text", model := MODEL_ID,
    dtype := "float32", device := "cpu" }

/-- A generation capability that answers with a two-turn generated chat
precisely when called with a two-message conversation and
`max_new_tokens = 200`, used to exercise the answer contract on a
concrete input. -/
def envGen : Env :=
  { files := [],
    cudaAvailable := false,
    run := fun _ msgs n =>
      if n == 200 && msgs.length == 2 then
        Except.ok [{ generated_text := [{ content := "draft" }, { content := "final" }] }]
      else Except.error "bad arguments",
    clock := fun _ => 0,
    mem := fun _ => 0,
    sizeLookup := Except.ok none }

/-- A two-image batch whose generation capability always succeeds, with
distinguishable clock and memory streams, used to exercise the
telemetry contract on a concrete input. -/
def envTwo : Env :=
  { files := ["a.png", "b.jpg"],
    cudaAvailable := false,
    run := fun _ _ _ => Except.ok [{ generated_text := [{ content := "ok" }] }],
    clock := fun k => (k : Int),
    mem := fun k => 10 + k,
    sizeLookup := Except.ok (some 5) }

/-- A two-image batch whose generation capability raises exactly on the
image `"b.png"` and succeeds on every other image, used to exercise
failure isolation on a concrete input. -/
def envFail : Env :=
  { files := ["a.jpg", "b.png"],
    cudaAvailable := false,
    run := fun _ msgs _ =>
      match msgs with
      | [_, { role := _, content := [ContentItem.image p] }] =>
        if p = "b.png" then Except.error "boom"
        else Except.ok [{ generated_text := [{ content := "fine" }] }]
      | _ => Except.error "unexpected conversation",
    clock := fun k => (k : Int),
    mem := fun k => 10 + k,
    sizeLookup := Except.ok (some 5) }

/-! ### Helper lemmas about the per-image loop -/

lemma describe_some_inits (env : Env) (image_path : String)
    (ut : Option String) (h : EngineHandle) :
    (describe_image_with_pipeline env image_path ut (some h)).inits = 0 := rfl

lemma describe_some_handle (env : Env) (image_path : String)
    (ut : Option String) (h : EngineHandle) :
    (describe_image_with_pipeline env image_path ut (some h)).handle = h := rfl

lemma processImages_inits (env : Env) (pipe : EngineHandle) :
    ∀ (l : List String) (t m : Nat), (processImages env pipe l t m).2 = 0 := by
  intro l
  induction l with
  | nil => intro t m; rfl
  | cons p rest ih =>
    intro t m
    simp [processImages, runOne, describe_some_inits, ih]

lemma processImages_map_image (env : Env) (pipe : EngineHandle) :
    ∀ (l : List String) (t m : Nat),
      (processImages env pipe l t m).1.map ItemReport.image = l := by
  intro l
  induction l with
  | nil => intro t m; rfl
  | cons p rest ih =>
    intro t m
    simp [processImages, runOne, ih]

lemma processImages_length (env : Env) (pipe : EngineHandle)
    (l : List String) (t m : Nat) :
    (processImages env pipe l t m).1.length = l.length := by
  have h := processImages_map_image env pipe l t m
  calc (processImages env pipe l t m).1.length
      = ((processImages env pipe l t m).1.map ItemReport.image).length := by
        rw [List.length_map]
    _ = l.length := by rw [h]

lemma processImages_getElem? (env : Env) (pipe : EngineHandle) :
    ∀ (l : List String) (t m i : Nat),
      (processImages env pipe l t m).1[i]? =
        (l[i]?).map (fun p => (runOne env pipe p (t + 2 * i) (m + 2 * i)).1) := by
  intro l
  induction l with
  | nil => intro t m i; rfl
  | cons p rest ih =>
    intro t m i
    cases i with
    | zero => simp [processImages]
    | succ j =>
      simp only [processImages, List.getElem?_cons_succ]
      rw [ih (t + 2) (m + 2) j]
      have ht : t + 2 + 2 * j = t + 2 * (j + 1) := by ring
      have hm : m + 2 + 2 * j = m + 2 * (j + 1) := by ring
      rw [ht, hm]

/-! ### Claims -/

/-- C10: the `user_text` argument of `describe_image_with_pipeline` has
no effect whatsoever: for any two values of it (including omitting it,
i.e. `none`), the same image and the same handle produce the identical
observable behaviour — the same conversation, the same pipeline use and
the same returned text. -/
theorem user_text_noninterference (env : Env) (image_path : String)
    (ut1 ut2 : Option String) (pipe : Option EngineHandle) :
    describe_image_with_pipeline env image_path ut1 pipe =
      describe_image_with_pipeline env image_path ut2 pipe := rfl

/-- C2: every call of `describe_image_with_pipeline` sends a
conversation made of a system turn carrying the one fixed
schema-string constant and a user turn carrying exactly one image
reference (the given path); two calls differ at most in the image
reference. -/
theorem prompt_determinism (env env2 : Env) (a b : String)
    (ua ub : Option String) (pa pb : Option EngineHandle) :
    ((describe_image_with_pipeline env a ua pa).messages.map stripImageRefs =
      (describe_image_with_pipeline env2 b ub pb).messages.map stripImageRefs) ∧
    ∃ sysMsg userMsg,
      (describe_image_with_pipeline env a ua pa).messages = [sysMsg, userMsg] ∧
      sysMsg.role = "system" ∧
      sysMsg.content = [ContentItem.text SYSTEM_SCHEMA_TEXT] ∧
      userMsg.role = "user" ∧
      imageRefs [userMsg] = [a] := by
  exact ⟨rfl, _, _, rfl, rfl, rfl, rfl, rfl⟩

/-- C3: a batch run constructs the generation pipeline at most once no
matter how many images it processes, and a
`describe_image_with_pipeline` call that is handed a pipeline performs
no construction of its own. -/
theorem engine_init_once (env : Env) :
    (mainRun env).initCount ≤ 1 ∧
    ∀ (h : EngineHandle) (image_path : String) (ut : Option String),
      (describe_image_with_pipeline env image_path ut (some h)).inits = 0 := by
  constructor
  · by_cases hd : (discoverImages env.files).isEmpty
    · simp [mainRun, hd]
    · simp [mainRun, hd, processImages_inits]
  · intro h image_path ut
    rfl

/-- C9: calling `describe_image_with_pipeline` with no pipeline handle
performs exactly one initialization, and the handle it constructs is
the very handle `main`'s load step constructs: the cuda/bfloat16
pipeline when CUDA is available, the cpu/float32 pipeline otherwise. -/
theorem convenience_init_equiv (env : Env) (image_path : String)
    (ut : Option String) :
    (describe_image_with_pipeline env image_path ut none).handle =
      mainEnginePipe env.cudaAvailable ∧
    (describe_image_with_pipeline env image_path ut none).inits = 1 := by
  cases h : env.cudaAvailable <;>
    simp [describe_image_with_pipeline, mainEnginePipe, h]

/-- C6: when discovery finds no image file, the run reports the
no-images outcome and terminates with zero pipeline constructions. -/
theorem empty_discovery_no_engine (env : Env)
    (h : discoverImages env.files = []) :
    mainRun env = { initCount := 0, outcome := RunOutcome.noImages } := by
  simp [mainRun, h]

/-- Witness for C6: on a directory holding only `notes.txt` the run
reports no images and constructs no engine. -/
theorem empty_discovery_no_engine_witness :
    mainRun envEmpty = { initCount := 0, outcome := RunOutcome.noImages } :=
  empty_discovery_no_engine envEmpty (by decide)

/-- C7: when the artifact-size probe fails in either mode — the weights
path cannot be resolved (`cached_file` returns `None`, source lines
91-93) or any exception is raised during the lookup (lines 97-98) —
the failure is swallowed: `get_model_size_gb` returns `none`, the batch
reports the model size as unknown, runs to completion and still emits
one report per image. -/
theorem size_probe_swallowed (env : Env)
    (hfail : (∃ e, env.sizeLookup = Except.error e) ∨
      env.sizeLookup = Except.ok none)
    (himg : discoverImages env.files ≠ []) :
    get_model_size_gb env.sizeLookup = none ∧
    (mainRun env).outcome.isCompleted = true ∧
    (mainRun env).outcome.modelSizeReported = some none ∧
    ((mainRun env).outcome.reports).length = (discoverImages env.files).length := by
  have hnone : get_model_size_gb env.sizeLookup = none := by
    rcases hfail with ⟨e, he⟩ | he <;> rw [he] <;> rfl
  have hd : (discoverImages env.files).isEmpty = false := by
    cases hl : discoverImages env.files with
    | nil => exact absurd hl himg
    | cons a l => rfl
  refine ⟨hnone, ?_, ?_, ?_⟩ <;>
    simp [mainRun, hd, RunOutcome.isCompleted, RunOutcome.modelSizeReported,
      RunOutcome.reports, hnone, processImages_length]

/-- Witness for C7, exercising both failure modes: with `a.png` present
and a size lookup that raises, and with `b.jpg` present and a size
lookup that resolves no weights path, the run completes, reports the
size as unknown and emits one report. -/
theorem size_probe_swallowed_witness :
    (get_model_size_gb envProbeFail.sizeLookup = none ∧
     (mainRun envProbeFail).outcome.isCompleted = true ∧
     (mainRun envProbeFail).outcome.modelSizeReported = some none ∧
     ((mainRun envProbeFail).outcome.reports).length =
       (discoverImages envProbeFail.files).length) ∧
    (get_model_size_gb envProbeNone.sizeLookup = none ∧
     (mainRun envProbeNone).outcome.isCompleted = true ∧
     (mainRun envProbeNone).outcome.modelSizeReported = some none ∧
     ((mainRun envProbeNone).outcome.reports).length =
       (discoverImages envProbeNone.files).length) :=
  ⟨size_probe_swallowed envProbeFail
     (Or.inl ⟨"model not in local cache", rfl⟩) (by decide),
   size_probe_swallowed envProbeNone (Or.inr rfl) (by decide)⟩

/-- C8: `describe_image_with_pipeline` sends the two-turn conversation
with `max_new_tokens = 200` to the generation capability using the
supplied handle, and when the capability returns an output it returns
the content of the final turn of the output's first generated chat. -/
theorem answer_contract (env : Env) (h : EngineHandle) (image_path : String)
    (ut : Option String) (out : GenOutput) (entry : GenEntry) (turn : GenTurn)
    (hrun : env.run h (messagesFor image_path) 200 = Except.ok out)
    (hhead : out.head? = some entry)
    (hlast : entry.generated_text.getLast? = some turn) :
    (describe_image_with_pipeline env image_path ut (some h)).result =
      Except.ok turn.content ∧
    (describe_image_with_pipeline env image_path ut (some h)).maxTokens = 200 ∧
    (describe_image_with_pipeline env image_path ut (some h)).messages =
      messagesFor image_path ∧
    (describe_image_with_pipeline env image_path ut (some h)).handle = h := by
  refine ⟨?_, rfl, rfl, rfl⟩
  show (match env.run h (messagesFor image_path) 200 with
        | Except.error e => Except.error e
        | Except.ok output => extractAnswer output) = Except.ok turn.content
  rw [hrun]
  cases out with
  | nil => simp at hhead
  | cons e0 rest =>
    have he : e0 = entry := by simpa using hhead
    show extractAnswer (e0 :: rest) = Except.ok turn.content
    rw [he]
    simp [extractAnswer, hlast]

/-- Witness for C8: a capability that answers only a two-message
conversation at 200 tokens with the chat `["draft", "final"]` makes
`describe_image_with_pipeline` return `"final"`. -/
theorem answer_contract_witness :
    (describe_image_with_pipeline envGen "img.png" none (some handleCpu)).result =
      Except.ok "final" ∧
    (describe_image_with_pipeline envGen "img.png" none (some handleCpu)).maxTokens = 200 ∧
    (describe_image_with_pipeline envGen "img.png" none (some handleCpu)).messages =
      messagesFor "img.png" ∧
    (describe_image_with_pipeline envGen "img.png" none (some handleCpu)).handle =
      handleCpu :=
  answer_contract envGen handleCpu "img.png" none
    [{ generated_text := [{ content := "draft" }, { content := "final" }] }]
    { generated_text := [{ content := "draft" }, { content := "final" }] }
    { content := "final" } rfl rfl rfl

lemma mainRun_reports (env : Env)
    (hd : (discoverImages env.files).isEmpty = false) :
    (mainRun env).outcome.reports =
      (processImages env (mainEnginePipe env.cudaAvailable)
        (discoverImages env.files) 2 1).1 := by
  simp [mainRun, hd, RunOutcome.reports]

lemma mainRun_isCompleted (env : Env)
    (hd : (discoverImages env.files).isEmpty = false) :
    (mainRun env).outcome.isCompleted = true := by
  simp [mainRun, hd, RunOutcome.isCompleted]

lemma describe_result_error (env : Env) (image_path : String)
    (ut : Option String) (h : EngineHandle) (e : String)
    (herr : env.run h (messagesFor image_path) 200 = Except.error e) :
    (describe_image_with_pipeline env image_path ut (some h)).result =
      Except.error e := by
  show (match env.run h (messagesFor image_path) 200 with
        | Except.error err => Except.error err
        | Except.ok output => extractAnswer output) = Except.error e
  rw [herr]

/-- C5: every discovered image yields exactly one ItemReport (the
reports list mirrors the discovered list image for image), and the
report at position `i` carries the before-memory sample (the
`1 + 2i`-th memory reading) and the after-memory sample (the
`2 + 2i`-th reading) — the loop takes both samples whether or not
inference succeeded. -/
theorem one_report_per_image (env : Env) :
    ((mainRun env).outcome.reports).map ItemReport.image =
      discoverImages env.files ∧
    ∀ (i : Nat) (image : String),
      (discoverImages env.files)[i]? = some image →
      ∃ r, ((mainRun env).outcome.reports)[i]? = some r ∧
        r.image = image ∧
        r.memBefore = env.mem (1 + 2 * i) ∧
        r.memAfter = env.mem (2 + 2 * i) := by
  cases hd : (discoverImages env.files).isEmpty with
  | true =>
    have hl : discoverImages env.files = [] := by simpa using hd
    refine ⟨?_, ?_⟩
    · simp [mainRun, hd, RunOutcome.reports, hl]
    · intro i image him
      rw [hl] at him
      simp at him
  | false =>
    have hrep := mainRun_reports env hd
    refine ⟨?_, ?_⟩
    · rw [hrep, processImages_map_image]
    · intro i image him
      rw [hrep,
        processImages_getElem? env (mainEnginePipe env.cudaAvailable)
          (discoverImages env.files) 2 1 i, him]
      refine ⟨_, rfl, rfl, rfl, ?_⟩
      show env.mem (1 + 2 * i + 1) = env.mem (2 + 2 * i)
      have harith : 1 + 2 * i + 1 = 2 + 2 * i := by omega
      rw [harith]

/-- Witness for C5: in the two-image batch the reports mirror the
discovered images and the first report carries memory samples 1 and
2. -/
theorem one_report_per_image_witness :
    ((mainRun envTwo).outcome.reports).map ItemReport.image =
      discoverImages envTwo.files ∧
    ∃ r, ((mainRun envTwo).outcome.reports)[0]? = some r ∧
      r.image = "a.png" ∧
      r.memBefore = envTwo.mem 1 ∧
      r.memAfter = envTwo.mem 2 :=
  ⟨(one_report_per_image envTwo).1,
   (one_report_per_image envTwo).2 0 "a.png" (by decide)⟩

/-- C1: when the generation capability raises for the `i`-th discovered
image, the loop still emits a report for it carrying the failure
description, the elapsed time between clock samples `2 + 2i` and
`3 + 2i` and the after-memory sample `2 + 2i`; the batch completes and
every discovered image — in particular every image after the failing
one — still gets its report. -/
theorem failure_isolation (env : Env) (i : Nat) (image e : String)
    (him : (discoverImages env.files)[i]? = some image)
    (herr : env.run (mainEnginePipe env.cudaAvailable)
      (messagesFor image) 200 = Except.error e) :
    (mainRun env).outcome.isCompleted = true ∧
    ((mainRun env).outcome.reports).map ItemReport.image =
      discoverImages env.files ∧
    ∃ r, ((mainRun env).outcome.reports)[i]? = some r ∧
      r.result = Except.error e ∧
      r.inferTime = env.clock (3 + 2 * i) - env.clock (2 + 2 * i) ∧
      r.memBefore = env.mem (1 + 2 * i) ∧
      r.memAfter = env.mem (2 + 2 * i) := by
  have hd : (discoverImages env.files).isEmpty = false := by
    cases hl : discoverImages env.files with
    | nil => rw [hl] at him; simp at him
    | cons a l => rfl
  have hrep := mainRun_reports env hd
  refine ⟨mainRun_isCompleted env hd, by rw [hrep, processImages_map_image], ?_⟩
  rw [hrep,
    processImages_getElem? env (mainEnginePipe env.cudaAvailable)
      (discoverImages env.files) 2 1 i, him]
  refine ⟨_, rfl, describe_result_error env image none _ e herr, ?_, rfl, ?_⟩
  · show env.clock (2 + 2 * i + 1) - env.clock (2 + 2 * i) =
      env.clock (3 + 2 * i) - env.clock (2 + 2 * i)
    have harith : 2 + 2 * i + 1 = 3 + 2 * i := by omega
    rw [harith]
  · show env.mem (1 + 2 * i + 1) = env.mem (2 + 2 * i)
    have harith : 1 + 2 * i + 1 = 2 + 2 * i := by omega
    rw [harith]

/-- Witness for C1: in the batch `["a.jpg", "b.png"]` whose capability
raises `"boom"` exactly on `b.png` (discovered first), the run
completes, both images get reports, and the first report carries the
failure with its telemetry. -/
theorem failure_isolation_witness :
    (mainRun envFail).outcome.isCompleted = true ∧
    ((mainRun envFail).outcome.reports).map ItemReport.image =
      discoverImages envFail.files ∧
    ∃ r, ((mainRun envFail).outcome.reports)[0]? = some r ∧
      r.result = Except.error "boom" ∧
      r.inferTime = envFail.clock 3 - envFail.clock 2 ∧
      r.memBefore = envFail.mem 1 ∧
      r.memAfter = envFail.mem 2 :=
  failure_isolation envFail 0 "b.png" "boom" (by decide) (by decide)

lemma discoverImages_eq (files : List String) :
    discoverImages files =
      files.filter (globStarDot "png") ++ files.filter (globStarDot "jpg") ++
        files.filter (globStarDot "jpeg") ++ files.filter (globStarDot "webp") := by
  simp [discoverImages, image_extensions]

lemma count_filter_ite (p : String → Bool) (a : String) (l : List String) :
    (l.filter p).count a = if p a then l.count a else 0 := by
  by_cases h : p a = true
  · rw [if_pos h]
    exact List.count_filter h
  · rw [if_neg h]
    exact List.count_eq_zero.mpr (fun hm => h (List.mem_filter.mp hm).2)

lemma not_suffix_both {s1 s2 n : List Char}
    (hle : s1.length ≤ s2.length) (hns : s1.isSuffixOf s2 = false) :
    ¬(s1.isSuffixOf n = true ∧ s2.isSuffixOf n = true) := by
  rintro ⟨h1, h2⟩
  rw [List.isSuffixOf_iff_suffix] at h1 h2
  have hs : s1 <:+ s2 := List.suffix_of_suffix_length_le h1 h2 hle
  rw [← List.isSuffixOf_iff_suffix, hns] at hs
  exact Bool.false_ne_true hs

/-- Counterexample for C4: the file `.a.png` has extension `png`, yet
discovery returns nothing for a directory holding exactly it, because
`glob`'s `*` never matches a leading dot — so discovery does not return
every file whose extension matches. -/
theorem discovery_hidden_counterexample :
    hasImageExtension ".a.png" = true ∧ discoverImages [".a.png"] = [] := by
  decide

/-- C4 (amended): for every set of filenames and every non-hidden name
(not beginning with a dot), discovery returns the name exactly as often
as it occurs in the directory when its extension matches one of `png`,
`jpg`, `jpeg`, `webp` case-sensitively, and never returns it
otherwise. -/
theorem discovery_extension_exact (files : List String) (name : String)
    (hhid : isHiddenName name = false) :
    (discoverImages files).count name =
      if hasImageExtension name then files.count name else 0 := by
  rw [discoverImages_eq, List.count_append, List.count_append,
    List.count_append, count_filter_ite, count_filter_ite,
    count_filter_ite, count_filter_ite]
  simp only [globStarDot, hhid, Bool.not_false, Bool.and_true,
    hasImageExtension, image_extensions, List.any_cons, List.any_nil,
    Bool.or_false]
  by_cases h1 : ("." ++ "png").data.isSuffixOf name.data = true
  · have h2 : ("." ++ "jpg").data.isSuffixOf name.data = false := by
      cases hb : ("." ++ "jpg").data.isSuffixOf name.data with
      | false => rfl
      | true => exact (not_suffix_both (by decide) (by decide) ⟨h1, hb⟩).elim
    have h3 : ("." ++ "jpeg").data.isSuffixOf name.data = false := by
      cases hb : ("." ++ "jpeg").data.isSuffixOf name.data with
      | false => rfl
      | true => exact (not_suffix_both (by decide) (by decide) ⟨h1, hb⟩).elim
    have h4 : ("." ++ "webp").data.isSuffixOf name.data = false := by
      cases hb : ("." ++ "webp").data.isSuffixOf name.data with
      | false => rfl
      | true => exact (not_suffix_both (by decide) (by decide) ⟨h1, hb⟩).elim
    simp_all
  · simp only [Bool.not_eq_true] at h1
    by_cases h2 : ("." ++ "jpg").data.isSuffixOf name.data = true
    · have h3 : ("." ++ "jpeg").data.isSuffixOf name.data = false := by
        cases hb : ("." ++ "jpeg").data.isSuffixOf name.data with
        | false => rfl
        | true => exact (not_suffix_both (by decide) (by decide) ⟨h2, hb⟩).elim
      have h4 : ("." ++ "webp").data.isSuffixOf name.data = false := by
        cases hb : ("." ++ "webp").data.isSuffixOf name.data with
        | false => rfl
        | true => exact (not_suffix_both (by decide) (by decide) ⟨h2, hb⟩).elim
      simp_all
    · simp only [Bool.not_eq_true] at h2
      by_cases h3 : ("." ++ "jpeg").data.isSuffixOf name.data = true
      · have h4 : ("." ++ "webp").data.isSuffixOf name.data = false := by
          cases hb : ("." ++ "webp").data.isSuffixOf name.data with
          | false => rfl
          | true => exact (not_suffix_both (by decide) (by decide) ⟨h3, hb⟩).elim
        simp_all
      · simp only [Bool.not_eq_true] at h3
        by_cases h4 : ("." ++ "webp").data.isSuffixOf name.data = true
        · simp_all
        · simp only [Bool.not_eq_true] at h4
          simp_all

/-- Witness for the amended C4: in the directory `a.jpg`, `b.png`,
`notes.txt` the name `a.jpg` is discovered exactly once. -/
theorem discovery_extension_exact_witness :
    (discoverImages ["a.jpg", "b.png", "notes.txt"]).count "a.jpg" =
      if hasImageExtension "a.jpg"
      then (["a.jpg", "b.png", "notes.txt"] : List String).count "a.jpg"
      else 0 :=
  discovery_extension_exact ["a.jpg", "b.png", "notes.txt"] "a.jpg" (by decide)
